import Mathlib

/-!
Verification of the 2D WebGL fluid simulation against its design document.

The framebuffer pool, solver passes and helper functions from
`src/script.ts`, `src/FluidRenderer.ts`, `src/physicsManager.ts`,
`src/bloomManager.ts`, `src/splatManager.ts`, `src/colorManager.ts` and
`src/DuffingOscillator.ts` are embedded shallowly:

* JS numbers are modelled as rationals (`ℚ`).
* GPU side effects are modelled by an explicit `GLState`: an allocation
  counter for fresh texture/framebuffer handles, and a store mapping a
  texture handle to its (symbolic) content.  A full-screen shader pass is
  an update of the store; the shader bodies themselves are external GLSL
  kernels, so their outputs are represented symbolically by the `Tex`
  constructors.
* `Math.cos` / `Math.sin` / `Math.PI` / `Math.sqrt` are external
  floating-point kernels; the Duffing oscillator is therefore embedded
  over an arbitrary linear ordered field together with an abstract
  `MathModel` providing those functions.
-/

namespace FluidSpec

/-- Symbolic content of a GPU texture.  `zero` is the cleared state;
each other constructor records one full-screen shader pass together with
the uniform values it received. -/
inductive Tex where
  /-- texture cleared at creation (`gl.clear`) -/
  | zero : Tex
  /-- `copyProgram` pass over a source texture -/
  | copy : Tex → Tex
  /-- pressure (Jacobi) shader pass: reads pressure and divergence -/
  | jacobi : Tex → Tex → Tex
  /-- `clearProgram` pass: source texture scaled by `value` -/
  | clearScaled : Tex → ℚ → Tex
  /-- splat shader pass: target, aspectRatio, point, color, radius -/
  | splat : Tex → ℚ → ℚ × ℚ → ℚ × ℚ × ℚ → ℚ → Tex
  /-- bloom prefilter pass: source, curve, threshold -/
  | bloomPre : Tex → ℚ × ℚ × ℚ → ℚ → Tex
  /-- bloom blur pass over a source texture -/
  | bloomBlur : Tex → Tex
  /-- additive blend of the old content with a blur of the source -/
  | bloomBlurAdd : Tex → Tex → Tex
  /-- bloom final pass: source, intensity -/
  | bloomFinal : Tex → ℚ → Tex
  deriving DecidableEq

/-- The mutable GL context: a fresh-handle counter and the contents of
every allocated texture. -/
structure GLState where
  alloc : ℕ
  store : ℕ → Tex

/-- Render a full-screen pass into the texture `texId` (the effect of
`blit` on the framebuffer whose color attachment is `texId`). -/
def writeTex (st : GLState) (texId : ℕ) (v : Tex) : GLState :=
  { st with store := fun t => if t = texId then v else st.store t }

/-- A single render target, as built by `createFBO` in `script.ts`
(lines 849-904) and `FluidRenderer.ts` (lines 694-737): texture and
framebuffer handles, dimensions, cached texel size and the creation-time
format parameters. -/
structure FBO where
  texture : ℕ
  fbo : ℕ
  width : ℚ
  height : ℚ
  texelSizeX : ℚ
  texelSizeY : ℚ
  internalFormat : ℕ
  format : ℕ
  texType : ℕ
  param : ℕ
  deriving DecidableEq

/-- `createFBO w h internalFormat format type param`: allocates a fresh
texture and framebuffer, clears the texture to zero, and caches
`texelSize = (1/w, 1/h)`. -/
def createFBO (st : GLState) (w h : ℚ) (internalFormat format texType param : ℕ) :
    FBO × GLState :=
  let texture := st.alloc
  let fboId := st.alloc + 1
  ({ texture := texture, fbo := fboId, width := w, height := h,
     texelSizeX := 1 / w, texelSizeY := 1 / h,
     internalFormat := internalFormat, format := format,
     texType := texType, param := param },
   { alloc := st.alloc + 2,
     store := fun t => if t = texture then Tex.zero else st.store t })

/-- A double buffer, as built by `createDoubleFBO`.  `fbo1`/`fbo2` model
the closure variables of the same name in the source; `read`/`write`,
`texture`/`fbo` model the object properties. -/
structure DoubleFBO where
  fbo1 : FBO
  fbo2 : FBO
  width : ℚ
  height : ℚ
  texelSizeX : ℚ
  texelSizeY : ℚ
  read : FBO
  write : FBO
  texture : ℕ
  fbo : ℕ
  deriving DecidableEq

/-- `createDoubleFBO` (`script.ts` 915-946, `FluidRenderer.ts` 739-770):
allocates two independent targets of the same shape; `read` starts as
`fbo1`, `write` as `fbo2`; `texture`/`fbo` mirror the read side. -/
def createDoubleFBO (st : GLState) (w h : ℚ) (internalFormat format texType param : ℕ) :
    DoubleFBO × GLState :=
  let p1 := createFBO st w h internalFormat format texType param
  let p2 := createFBO p1.2 w h internalFormat format texType param
  ({ fbo1 := p1.1, fbo2 := p2.1, width := w, height := h,
     texelSizeX := p1.1.texelSizeX, texelSizeY := p1.1.texelSizeY,
     read := p1.1, write := p2.1,
     texture := p1.1.texture, fbo := p1.1.fbo },
   p2.2)

/-- The `swap()` method of a double buffer: exchanges the two closure
variables and refreshes the `read`/`write`/`texture`/`fbo` properties.
It takes no `GLState`, so it moves no texture data. -/
def DoubleFBO.swap (d : DoubleFBO) : DoubleFBO :=
  { d with fbo1 := d.fbo2, fbo2 := d.fbo1,
           read := d.fbo2, write := d.fbo1,
           texture := d.fbo2.texture, fbo := d.fbo2.fbo }

/-- Claim C1: for all valid (width, height, format) triples, a double
buffer created by `createDoubleFBO`, after one `swap()`, has its width,
height, texelSizeX and texelSizeY unchanged, the two underlying render
targets have exchanged their read and write roles (with no data
copy — `swap` does not touch the GL store), and two consecutive swaps
restore the original buffer exactly. -/
theorem createDoubleFBO_swap_spec
    (st : GLState) (w h : ℚ) (internalFormat format texType param : ℕ)
    (hw : 0 < w) (hh : 0 < h) :
    ((createDoubleFBO st w h internalFormat format texType param).1.swap.width =
        (createDoubleFBO st w h internalFormat format texType param).1.width ∧
      (createDoubleFBO st w h internalFormat format texType param).1.swap.height =
        (createDoubleFBO st w h internalFormat format texType param).1.height ∧
      (createDoubleFBO st w h internalFormat format texType param).1.swap.texelSizeX =
        (createDoubleFBO st w h internalFormat format texType param).1.texelSizeX ∧
      (createDoubleFBO st w h internalFormat format texType param).1.swap.texelSizeY =
        (createDoubleFBO st w h internalFormat format texType param).1.texelSizeY) ∧
    ((createDoubleFBO st w h internalFormat format texType param).1.swap.read =
        (createDoubleFBO st w h internalFormat format texType param).1.write ∧
      (createDoubleFBO st w h internalFormat format texType param).1.swap.write =
        (createDoubleFBO st w h internalFormat format texType param).1.read) ∧
    (createDoubleFBO st w h internalFormat format texType param).1.swap.swap =
      (createDoubleFBO st w h internalFormat format texType param).1 :=
  ⟨⟨rfl, rfl, rfl, rfl⟩, ⟨rfl, rfl⟩, rfl⟩

/-- Witness for C1 at a concrete valid triple. -/
theorem createDoubleFBO_swap_spec_witness :
    ((createDoubleFBO ⟨0, fun _ => Tex.zero⟩ 4 3 1 2 3 4).1.swap.swap =
      (createDoubleFBO ⟨0, fun _ => Tex.zero⟩ 4 3 1 2 3 4).1) :=
  (createDoubleFBO_swap_spec ⟨0, fun _ => Tex.zero⟩ 4 3 1 2 3 4
    (by norm_num) (by norm_num)).2.2

/-- `resizeFBO` (`script.ts` 958-972, `FluidRenderer.ts` 772-786):
unconditionally creates a fresh target of the new size and resamples the
old content into it with the copy program.  There is no same-size
guard. -/
def resizeFBO (st : GLState) (target : FBO) (w h : ℚ)
    (internalFormat format texType param : ℕ) : FBO × GLState :=
  let p := createFBO st w h internalFormat format texType param
  let st2 := writeTex p.2 p.1.texture (Tex.copy (p.2.store target.texture))
  (p.1, st2)

/-- `resizeDoubleFBO` (`script.ts` 984-1002, `FluidRenderer.ts`
788-806): returns the target itself when the size is unchanged;
otherwise resamples the read side, freshly allocates the write side and
updates the dimension fields (the `fbo1`/`fbo2`/`texture`/`fbo` fields
are left untouched, exactly as the source mutates only the listed
properties). -/
def resizeDoubleFBO (st : GLState) (target : DoubleFBO) (w h : ℚ)
    (internalFormat format texType param : ℕ) : DoubleFBO × GLState :=
  if target.width = w ∧ target.height = h then (target, st)
  else
    let pr := resizeFBO st target.read w h internalFormat format texType param
    let pw := createFBO pr.2 w h internalFormat format texType param
    ({ target with read := pr.1, write := pw.1, width := w, height := h,
                   texelSizeX := 1 / w, texelSizeY := 1 / h },
     pw.2)

/-- Claim C4 counterexample: resizing a single render target to its own
current size is not a no-op.  For the concrete 4×4 target below,
`resizeFBO` at the same (4, 4) returns a different instance (a fresh
texture handle) and advances the allocator, i.e. it reallocates. -/
theorem resizeFBO_same_size_not_noop :
    ((resizeFBO (createFBO ⟨0, fun _ => Tex.zero⟩ 4 4 1 2 3 4).2
        (createFBO ⟨0, fun _ => Tex.zero⟩ 4 4 1 2 3 4).1 4 4 1 2 3 4).1.texture ≠
      (createFBO ⟨0, fun _ => Tex.zero⟩ 4 4 1 2 3 4).1.texture) ∧
    ((resizeFBO (createFBO ⟨0, fun _ => Tex.zero⟩ 4 4 1 2 3 4).2
        (createFBO ⟨0, fun _ => Tex.zero⟩ 4 4 1 2 3 4).1 4 4 1 2 3 4).2.alloc ≠
      (createFBO ⟨0, fun _ => Tex.zero⟩ 4 4 1 2 3 4).2.alloc) :=
  ⟨by decide, by decide⟩

/-- Claim C4, amended: calling `resizeDoubleFBO` with the target's
current (width, height) is a no-op — it returns the very same
double-buffer instance and leaves the GL state (allocator and every
texture) untouched.  `resizeFBO` on a single target has no such guard:
it always allocates a fresh target (consuming two fresh handles) and
resamples the old content into it, even at identical dimensions. -/
theorem resize_same_size_spec
    (st : GLState) (d : DoubleFBO) (t : FBO) (w h : ℚ)
    (internalFormat format texType param : ℕ) :
    resizeDoubleFBO st d d.width d.height internalFormat format texType param =
      (d, st) ∧
    (resizeFBO st t w h internalFormat format texType param).1.texture = st.alloc ∧
    (resizeFBO st t w h internalFormat format texType param).2.alloc = st.alloc + 2 :=
  ⟨by simp [resizeDoubleFBO], rfl, rfl⟩

/-- JavaScript `Math.round`: round half toward positive infinity. -/
def jsRound (q : ℚ) : ℤ := ⌊q + 1 / 2⌋

/-- `getResolution` (`script.ts` 1340-1352, `FluidRenderer.ts`
594-606), with the drawing-buffer size passed explicitly: normalize the
aspect ratio to at least 1, then assign the scaled value to the longer
screen dimension. -/
def getResolution (bufW bufH resolution : ℚ) : ℤ × ℤ :=
  let aspectRatio := bufW / bufH
  let aspectRatio2 := if aspectRatio < 1 then 1 / aspectRatio else aspectRatio
  let mn := jsRound resolution
  let mx := jsRound (resolution * aspectRatio2)
  if bufW > bufH then (mx, mn) else (mn, mx)

/-- The normalized aspect ratio computed inside `getResolution`. -/
def normAspect (bufW bufH : ℚ) : ℚ :=
  if bufW / bufH < 1 then 1 / (bufW / bufH) else bufW / bufH

/-- Claim C3: for every resolution scalar and positive drawing-buffer
size, `getResolution` normalizes the aspect ratio to a value ≥ 1 and
returns (round(r·a), round r) when the buffer is wider than it is tall
and (round r, round(r·a)) otherwise; on a square buffer it returns
(round r, round r). -/
theorem getResolution_spec (bufW bufH r : ℚ) (hW : 0 < bufW) (hH : 0 < bufH) :
    1 ≤ normAspect bufW bufH ∧
    (bufH < bufW →
      getResolution bufW bufH r = (jsRound (r * normAspect bufW bufH), jsRound r)) ∧
    (¬ bufH < bufW →
      getResolution bufW bufH r = (jsRound r, jsRound (r * normAspect bufW bufH))) ∧
    (bufW = bufH → getResolution bufW bufH r = (jsRound r, jsRound r)) := by
  have haspect : 1 ≤ normAspect bufW bufH := by
    unfold normAspect
    split
    · rename_i hlt
      have hpos : 0 < bufW / bufH := div_pos hW hH
      rw [le_div_iff₀ hpos]
      linarith
    · linarith [not_lt.mp (by assumption : ¬ bufW / bufH < 1)]
  refine ⟨haspect, ?_, ?_, ?_⟩
  · intro hgt
    simp only [getResolution, normAspect]
    rw [if_pos (by exact hgt)]
  · intro hle
    simp only [getResolution, normAspect]
    rw [if_neg (by exact hle)]
  · intro heq
    subst heq
    have h1 : bufW / bufW = 1 := div_self (ne_of_gt hW)
    simp only [getResolution, h1]
    rw [if_neg (lt_irrefl (1 : ℚ)), if_neg (lt_irrefl bufW), mul_one]

/-- Witness for C3 at a concrete wide buffer: 300×200 at scalar 128
gives a normalized aspect of 3/2 and resolution (192, 128). -/
theorem getResolution_spec_witness :
    (1 : ℚ) ≤ normAspect 300 200 ∧
    getResolution 300 200 128 = (jsRound (128 * normAspect 300 200), jsRound 128) ∧
    getResolution 300 200 128 = (192, 128) := by
  have h := getResolution_spec 300 200 128 (by norm_num) (by norm_num)
  refine ⟨h.1, h.2.1 (by norm_num), ?_⟩
  norm_num [getResolution, jsRound]

/-- `calcDeltaTime` (`script.ts` 1076-1082, `FluidRenderer.ts`
231-236): elapsed milliseconds since the previous tick, converted to
seconds and clamped by `Math.min` to the literal 0.016666; the new
`lastUpdateTime` is `now`. -/
def calcDeltaTime (now lastUpdateTime : ℚ) : ℚ × ℚ :=
  let dt := (now - lastUpdateTime) / 1000
  let dt2 := min dt (16666 / 1000000)
  (dt2, now)

/-- Claim C6: for every elapsed wall-clock time between two frames,
`calcDeltaTime` returns min(elapsed/1000, 0.016666) seconds, so the dt
handed to the solver step never exceeds that fixed maximum, however long
the host stalled. -/
theorem calcDeltaTime_spec (now lastUpdateTime : ℚ) :
    (calcDeltaTime now lastUpdateTime).1 =
      min ((now - lastUpdateTime) / 1000) (16666 / 1000000) ∧
    (calcDeltaTime now lastUpdateTime).1 ≤ 16666 / 1000000 ∧
    (calcDeltaTime now lastUpdateTime).2 = now :=
  ⟨rfl, min_le_right _ _, rfl⟩

/-- `correctRadius` (`splatManager.ts` 91-96; the `script.ts` 1244-1249
version computes the same with `aspectRatio = canvas.width /
canvas.height`): scale the radius by the aspect ratio when the canvas is
wider than it is tall. -/
def correctRadius (radius aspectRatio : ℚ) : ℚ :=
  if aspectRatio > 1 then radius * aspectRatio else radius

/-- Claim C7: for every radius and aspect ratio, `correctRadius` returns
the radius unchanged when the aspect ratio is ≤ 1 and returns
radius × aspectRatio when the aspect ratio is > 1. -/
theorem correctRadius_spec (radius aspectRatio : ℚ) :
    (aspectRatio ≤ 1 → correctRadius radius aspectRatio = radius) ∧
    (1 < aspectRatio → correctRadius radius aspectRatio = radius * aspectRatio) := by
  constructor
  · intro hle
    simp [correctRadius, not_lt.mpr hle]
  · intro hgt
    simp [correctRadius, hgt]

/-- Witness for C7: aspect 1/2 leaves radius 5 unchanged; aspect 2
doubles it. -/
theorem correctRadius_spec_witness :
    correctRadius 5 (1 / 2) = 5 ∧ correctRadius 5 2 = 5 * 2 :=
  ⟨(correctRadius_spec 5 (1 / 2)).1 (by norm_num),
   (correctRadius_spec 5 2).2 (by norm_num)⟩

/-- `PhysicsConfig` (`types.ts`): the tuning values read by the physics
passes.  The iteration count drives a counted loop, so it is a natural
number here. -/
structure PhysicsConfig where
  PRESSURE : ℚ
  PRESSURE_ITERATIONS : ℕ
  CURL : ℚ
  VELOCITY_DISSIPATION : ℚ
  DENSITY_DISSIPATION : ℚ
  deriving DecidableEq

/-- The observable shape of one Jacobi iteration of `applyPressure`:
which texture was bound as `uPressure`, which as `uDivergence`, and
which framebuffer was rendered into. -/
structure PressurePass where
  readsPressure : ℕ
  readsDivergence : ℕ
  writesPressure : ℕ
  deriving DecidableEq

/-- One iteration of the loop in `applyPressure` (`physicsManager.ts`
58-62): bind `pressure.read` as `uPressure`, render the Jacobi pass into
`pressure.write` (sampling the divergence target bound before the
loop), then `pressure.swap()`. -/
def pressureIter (st : GLState) (divergence : FBO) (p : DoubleFBO) :
    GLState × DoubleFBO × PressurePass :=
  let pass : PressurePass := ⟨p.read.texture, divergence.texture, p.write.fbo⟩
  let st' := writeTex st p.write.texture
    (Tex.jacobi (st.store p.read.texture) (st.store divergence.texture))
  (st', p.swap, pass)

/-- The counted loop of `applyPressure`, returning the final GL state,
the final pressure double buffer and the trace of iterations in
order. -/
def applyPressureLoop : ℕ → GLState → FBO → DoubleFBO →
    GLState × DoubleFBO × List PressurePass
  | 0, st, _, p => (st, p, [])
  | n + 1, st, divergence, p =>
    let it := pressureIter st divergence p
    let rest := applyPressureLoop n it.1 divergence it.2.1
    (rest.1, rest.2.1, it.2.2 :: rest.2.2)

/-- `applyPressure` (`physicsManager.ts` 45-63): run exactly
`config.PRESSURE_ITERATIONS` Jacobi iterations. -/
def applyPressure (config : PhysicsConfig) (st : GLState)
    (divergence : FBO) (pressure : DoubleFBO) :
    GLState × DoubleFBO × List PressurePass :=
  applyPressureLoop config.PRESSURE_ITERATIONS st divergence pressure

/-- The pressure-decay ("clear") pass of `step` (`script.ts`
1132-1136): render `pressure.read` scaled by `config.PRESSURE` into
`pressure.write`, then swap. -/
def pressureClearPass (st : GLState) (config : PhysicsConfig) (pressure : DoubleFBO) :
    GLState × DoubleFBO :=
  let st' := writeTex st pressure.write.texture
    (Tex.clearScaled (st.store pressure.read.texture) config.PRESSURE)
  (st', pressure.swap)

/-- The pressure stage of `step` (`script.ts` 1132-1138): the decay pass
followed by `applyPressure`; its output pressure buffer is what the
gradient-subtraction stage then reads. -/
def pressureStage (st : GLState) (config : PhysicsConfig)
    (pressure : DoubleFBO) (divergence : FBO) :
    GLState × DoubleFBO × List PressurePass :=
  let c := pressureClearPass st config pressure
  applyPressure config c.1 divergence c.2

lemma applyPressureLoop_length (n : ℕ) :
    ∀ (st : GLState) (divergence : FBO) (p : DoubleFBO),
      (applyPressureLoop n st divergence p).2.2.length = n := by
  induction n with
  | zero => intro st divergence p; rfl
  | succ m ih =>
    intro st divergence p
    simp only [applyPressureLoop, List.length_cons]
    rw [ih]

lemma applyPressureLoop_double (n : ℕ) :
    ∀ (st : GLState) (divergence : FBO) (p : DoubleFBO),
      (applyPressureLoop n st divergence p).2.1 = DoubleFBO.swap^[n] p := by
  induction n with
  | zero => intro st divergence p; rfl
  | succ m ih =>
    intro st divergence p
    simp only [applyPressureLoop]
    rw [ih, Function.iterate_succ_apply]
    rfl

lemma applyPressureLoop_get (n : ℕ) :
    ∀ (k : ℕ) (st : GLState) (divergence : FBO) (p : DoubleFBO), k < n →
      (applyPressureLoop n st divergence p).2.2[k]? =
        some ⟨(DoubleFBO.swap^[k] p).read.texture, divergence.texture,
              (DoubleFBO.swap^[k] p).write.fbo⟩ := by
  induction n with
  | zero => intro k st divergence p hk; exact absurd hk (Nat.not_lt_zero k)
  | succ m ih =>
    intro k st divergence p hk
    cases k with
    | zero =>
      simp only [applyPressureLoop, List.getElem?_cons_zero,
        Function.iterate_zero, id_eq]
      rfl
    | succ j =>
      simp only [applyPressureLoop, List.getElem?_cons_succ]
      rw [ih j _ divergence _ (Nat.lt_of_succ_lt_succ hk)]
      rw [Function.iterate_succ_apply]
      rfl

/-- Claim C2: `applyPressure` always runs exactly
`config.PRESSURE_ITERATIONS` Jacobi iterations with no early exit; the
k-th iteration reads the current `pressure.read` (the buffers having
been swapped after every previous iteration) together with the
divergence target and writes `pressure.write`; the final buffer is the
input swapped once per iteration.  With `PRESSURE_ITERATIONS = 0` the
loop performs zero passes and leaves state and pressure untouched, so
the pressure entering the gradient-subtraction stage equals its
post-decay value. -/
theorem applyPressure_spec (config : PhysicsConfig) (st : GLState)
    (divergence : FBO) (pressure : DoubleFBO) :
    (applyPressure config st divergence pressure).2.2.length =
      config.PRESSURE_ITERATIONS ∧
    (∀ k, k < config.PRESSURE_ITERATIONS →
      (applyPressure config st divergence pressure).2.2[k]? =
        some ⟨(DoubleFBO.swap^[k] pressure).read.texture, divergence.texture,
              (DoubleFBO.swap^[k] pressure).write.fbo⟩) ∧
    (applyPressure config st divergence pressure).2.1 =
      DoubleFBO.swap^[config.PRESSURE_ITERATIONS] pressure ∧
    (config.PRESSURE_ITERATIONS = 0 →
      applyPressure config st divergence pressure = (st, pressure, [])) ∧
    (config.PRESSURE_ITERATIONS = 0 →
      pressureStage st config pressure divergence =
        ((pressureClearPass st config pressure).1,
         (pressureClearPass st config pressure).2, [])) := by
  refine ⟨applyPressureLoop_length _ _ _ _,
    fun k hk => applyPressureLoop_get _ k _ _ _ hk,
    applyPressureLoop_double _ _ _ _, ?_, ?_⟩
  · intro h0
    simp only [applyPressure, h0]
    rfl
  · intro h0
    simp only [pressureStage, applyPressure, h0]
    rfl

/-- Witness for C2: a 2-iteration run over concrete buffers has a
2-element trace whose second pass reads the once-swapped buffer, and a
0-iteration run is the identity on state and pressure. -/
theorem applyPressure_spec_witness :
    (applyPressure ⟨8 / 10, 2, 30, 2 / 10, 1⟩
        (createFBO (createDoubleFBO ⟨0, fun _ => Tex.zero⟩ 4 4 1 2 3 4).2 4 4 1 2 3 4).2
        (createFBO (createDoubleFBO ⟨0, fun _ => Tex.zero⟩ 4 4 1 2 3 4).2 4 4 1 2 3 4).1
        (createDoubleFBO ⟨0, fun _ => Tex.zero⟩ 4 4 1 2 3 4).1).2.2.length = 2 ∧
    (applyPressure ⟨8 / 10, 2, 30, 2 / 10, 1⟩
        (createFBO (createDoubleFBO ⟨0, fun _ => Tex.zero⟩ 4 4 1 2 3 4).2 4 4 1 2 3 4).2
        (createFBO (createDoubleFBO ⟨0, fun _ => Tex.zero⟩ 4 4 1 2 3 4).2 4 4 1 2 3 4).1
        (createDoubleFBO ⟨0, fun _ => Tex.zero⟩ 4 4 1 2 3 4).1).2.2[1]? =
      some ⟨(DoubleFBO.swap^[1] (createDoubleFBO ⟨0, fun _ => Tex.zero⟩ 4 4 1 2 3 4).1).read.texture,
            (createFBO (createDoubleFBO ⟨0, fun _ => Tex.zero⟩ 4 4 1 2 3 4).2 4 4 1 2 3 4).1.texture,
            (DoubleFBO.swap^[1] (createDoubleFBO ⟨0, fun _ => Tex.zero⟩ 4 4 1 2 3 4).1).write.fbo⟩ ∧
    applyPressure ⟨8 / 10, 0, 30, 2 / 10, 1⟩
        (createFBO (createDoubleFBO ⟨0, fun _ => Tex.zero⟩ 4 4 1 2 3 4).2 4 4 1 2 3 4).2
        (createFBO (createDoubleFBO ⟨0, fun _ => Tex.zero⟩ 4 4 1 2 3 4).2 4 4 1 2 3 4).1
        (createDoubleFBO ⟨0, fun _ => Tex.zero⟩ 4 4 1 2 3 4).1 =
      ((createFBO (createDoubleFBO ⟨0, fun _ => Tex.zero⟩ 4 4 1 2 3 4).2 4 4 1 2 3 4).2,
       (createDoubleFBO ⟨0, fun _ => Tex.zero⟩ 4 4 1 2 3 4).1, []) :=
  ⟨(applyPressure_spec ⟨8 / 10, 2, 30, 2 / 10, 1⟩ _ _ _).1,
   (applyPressure_spec ⟨8 / 10, 2, 30, 2 / 10, 1⟩ _ _ _).2.1 1 (by norm_num),
   (applyPressure_spec ⟨8 / 10, 0, 30, 2 / 10, 1⟩ _ _ _).2.2.2.1 rfl⟩

/-- `BloomConfig` (`bloomManager.ts`): iteration count and the numeric
bloom parameters. -/
structure BloomConfig where
  iterations : ℕ
  resolution : ℚ
  intensity : ℚ
  threshold : ℚ
  softKnee : ℚ
  deriving DecidableEq

/-- The mip-chain loop of `initBloomFramebuffers` (`bloomManager.ts`
72-87): at step `i` the candidate size is `res >> (i+1)` (JavaScript
`>>`, i.e. floor halving, modelled by `Nat.shiftRight` on the
non-negative resolutions); the loop breaks as soon as either dimension
drops below 2, otherwise it allocates a framebuffer and continues.  The
first argument counts the remaining iterations, the second is the
current index `i`. -/
def initBloomLoop (resW resH : ℕ) (internalFormat format texType filtering : ℕ) :
    ℕ → ℕ → GLState → GLState × List FBO
  | 0, _, st => (st, [])
  | n + 1, i, st =>
    let width := resW >>> (i + 1)
    let height := resH >>> (i + 1)
    if width < 2 ∨ height < 2 then (st, [])
    else
      let p := createFBO st (width : ℚ) (height : ℚ) internalFormat format texType filtering
      let rest := initBloomLoop resW resH internalFormat format texType filtering n (i + 1) p.2
      (rest.1, p.1 :: rest.2)

/-- `initBloomFramebuffers` (`bloomManager.ts` 48-90): allocate the main
bloom target at the derived resolution, then build the mip chain
starting at index 0. -/
def initBloomFramebuffers (st : GLState) (config : BloomConfig)
    (resW resH : ℕ) (internalFormat format texType filtering : ℕ) :
    GLState × FBO × List FBO :=
  let pb := createFBO st (resW : ℚ) (resH : ℚ) internalFormat format texType filtering
  let chain := initBloomLoop resW resH internalFormat format texType filtering
    config.iterations 0 pb.2
  (chain.1, pb.1, chain.2)

/-- `applyBloom` (`bloomManager.ts` 101-156): return immediately with
fewer than 2 mip framebuffers; otherwise prefilter into the
destination, blur down the chain, additively blend back up, and run the
final intensity pass into the destination. -/
def applyBloom (st : GLState) (config : BloomConfig) (fbs : List FBO)
    (source destination : FBO) : GLState :=
  if fbs.length < 2 then st
  else
    let knee := config.threshold * config.softKnee + 1 / 10000
    let curve0 := config.threshold - knee
    let curve1 := knee * 2
    let curve2 := (1 / 4) / knee
    let st1 := writeTex st destination.texture
      (Tex.bloomPre (st.store source.texture) (curve0, curve1, curve2) config.threshold)
    let down := fbs.foldl
      (fun (acc : GLState × FBO) dest =>
        (writeTex acc.1 dest.texture (Tex.bloomBlur (acc.1.store acc.2.texture)), dest))
      (st1, destination)
    let up := fbs.dropLast.reverse.foldl
      (fun (acc : GLState × FBO) baseTex =>
        (writeTex acc.1 baseTex.texture
          (Tex.bloomBlurAdd (acc.1.store baseTex.texture)
            (Tex.bloomBlur (acc.1.store acc.2.texture))), baseTex))
      down
    writeTex up.1 destination.texture
      (Tex.bloomFinal (up.1.store up.2.texture) config.intensity)

/-- Claim C5: whenever fewer than 2 bloom mip-level framebuffers exist,
`applyBloom` returns immediately with the whole GL state — in
particular the destination framebuffer — unchanged from its pre-call
state; and the two quoted ways of getting there do yield fewer than 2
mip levels: with `iterations = 0` the mip chain is empty, and with a
resolution whose first halving is already below 2 in either dimension
the chain terminates before its first level. -/
theorem applyBloom_noop_spec (st : GLState) (config : BloomConfig)
    (fbs : List FBO) (source destination : FBO) :
    (fbs.length < 2 → applyBloom st config fbs source destination = st) ∧
    (config.iterations = 0 →
      ∀ (resW resH internalFormat format texType filtering i : ℕ) (st' : GLState),
        (initBloomLoop resW resH internalFormat format texType filtering
          config.iterations i st').2 = []) ∧
    (∀ (resW resH internalFormat format texType filtering n : ℕ) (st' : GLState),
      resW >>> 1 < 2 ∨ resH >>> 1 < 2 →
      (initBloomLoop resW resH internalFormat format texType filtering n 0 st').2 = []) := by
  refine ⟨?_, ?_, ?_⟩
  · intro h
    unfold applyBloom
    rw [if_pos h]
  · intro h0 resW resH internalFormat format texType filtering i st'
    rw [h0]
    rfl
  · intro resW resH internalFormat format texType filtering n st' h
    cases n with
    | zero => rfl
    | succ m =>
      have h' : resW >>> (0 + 1) < 2 ∨ resH >>> (0 + 1) < 2 := by
        simpa using h
      simp only [initBloomLoop]
      rw [if_pos h']

/-- Witness for C5: with a single mip framebuffer the destination
texture's content is untouched; a zero-iteration init yields an empty
chain; a 2×2 resolution terminates the chain before its first level. -/
theorem applyBloom_noop_spec_witness :
    applyBloom ⟨0, fun _ => Tex.zero⟩ ⟨8, 256, 1 / 10, 6 / 10, 7 / 10⟩ []
        (createFBO ⟨0, fun _ => Tex.zero⟩ 4 4 1 2 3 4).1
        (createFBO ⟨0, fun _ => Tex.zero⟩ 4 4 1 2 3 4).1 =
      ⟨0, fun _ => Tex.zero⟩ ∧
    (initBloomLoop 256 144 1 2 3 4 (0 : ℕ) 0 ⟨0, fun _ => Tex.zero⟩).2 = [] ∧
    (initBloomLoop 2 2 1 2 3 4 8 0 ⟨0, fun _ => Tex.zero⟩).2 = [] :=
  ⟨(applyBloom_noop_spec ⟨0, fun _ => Tex.zero⟩ ⟨8, 256, 1 / 10, 6 / 10, 7 / 10⟩ [] _ _).1
      (by norm_num),
   (applyBloom_noop_spec ⟨0, fun _ => Tex.zero⟩ ⟨0, 256, 1 / 10, 6 / 10, 7 / 10⟩ []
      (createFBO ⟨0, fun _ => Tex.zero⟩ 4 4 1 2 3 4).1
      (createFBO ⟨0, fun _ => Tex.zero⟩ 4 4 1 2 3 4).1).2.1 rfl 256 144 1 2 3 4 0
      ⟨0, fun _ => Tex.zero⟩,
   (applyBloom_noop_spec ⟨0, fun _ => Tex.zero⟩ ⟨8, 256, 1 / 10, 6 / 10, 7 / 10⟩ []
      (createFBO ⟨0, fun _ => Tex.zero⟩ 4 4 1 2 3 4).1
      (createFBO ⟨0, fun _ => Tex.zero⟩ 4 4 1 2 3 4).1).2.2 2 2 1 2 3 4 8
      ⟨0, fun _ => Tex.zero⟩ (by decide)⟩

/-- `SplatConfig` (`splatManager.ts` 39-42). -/
structure SplatConfig where
  SPLAT_FORCE : ℚ
  SPLAT_RADIUS : ℚ
  deriving DecidableEq

/-- `SplatColor` (`splatManager.ts` 63-67). -/
structure SplatColor where
  r : ℚ
  g : ℚ
  b : ℚ
  deriving DecidableEq

/-- The uniform values `applySplat` hands to the splat shader: the
aspect ratio, point, the color of the velocity pass, the radius, and
the color of the dye pass. -/
structure SplatUniforms where
  aspectRatio : ℚ
  point : ℚ × ℚ
  velocityColor : ℚ × ℚ × ℚ
  radius : ℚ
  dyeColor : ℚ × ℚ × ℚ
  deriving DecidableEq

/-- `applySplat` (`splatManager.ts` 101-134): one splat pass into the
velocity buffer (color = (dx, dy, 0)) and one into the dye buffer
(color = the splat color), each followed by a swap; the radius uniform
is `correctRadius(config.SPLAT_RADIUS / 100, canvas.width /
canvas.height)`. -/
def applySplat (st : GLState) (config : SplatConfig) (x y dx dy : ℚ)
    (color : SplatColor) (velocity dye : DoubleFBO) (canvasW canvasH : ℚ) :
    GLState × DoubleFBO × DoubleFBO × SplatUniforms :=
  let aspectRatio := canvasW / canvasH
  let radius := correctRadius (config.SPLAT_RADIUS / 100) aspectRatio
  let st1 := writeTex st velocity.write.texture
    (Tex.splat (st.store velocity.read.texture) aspectRatio (x, y) (dx, dy, 0) radius)
  let velocity' := velocity.swap
  let st2 := writeTex st1 dye.write.texture
    (Tex.splat (st1.store dye.read.texture) aspectRatio (x, y)
      (color.r, color.g, color.b) radius)
  let dye' := dye.swap
  (st2, velocity', dye',
   ⟨aspectRatio, (x, y), (dx, dy, 0), radius, (color.r, color.g, color.b)⟩)

/-- Claim C10: the radius `applySplat` passes to the splat shader's
radius uniform equals `correctRadius(config.SPLAT_RADIUS / 100,
canvas.width / canvas.height)` — the configured radius is divided by
100 before aspect correction and no lower clamp is applied, so a
non-positive configured `SPLAT_RADIUS` yields a non-positive radius
uniform. -/
theorem applySplat_radius_spec (st : GLState) (config : SplatConfig)
    (x y dx dy : ℚ) (color : SplatColor) (velocity dye : DoubleFBO)
    (canvasW canvasH : ℚ) :
    (applySplat st config x y dx dy color velocity dye canvasW canvasH).2.2.2.radius =
      correctRadius (config.SPLAT_RADIUS / 100) (canvasW / canvasH) ∧
    (config.SPLAT_RADIUS ≤ 0 →
      (applySplat st config x y dx dy color velocity dye canvasW canvasH).2.2.2.radius ≤ 0) := by
  constructor
  · rfl
  · intro h
    have hr : config.SPLAT_RADIUS / 100 ≤ 0 := by linarith
    show correctRadius (config.SPLAT_RADIUS / 100) (canvasW / canvasH) ≤ 0
    unfold correctRadius
    split
    · rename_i ha
      nlinarith
    · exact hr

/-- Witness for C10: with `SPLAT_RADIUS = -3` on a 2:1 canvas the radius
uniform is non-positive (it is −3/100 · 2). -/
theorem applySplat_radius_spec_witness :
    (applySplat ⟨0, fun _ => Tex.zero⟩ ⟨6000, -3⟩ 0 0 0 0 ⟨1, 0, 0⟩
        (createDoubleFBO ⟨0, fun _ => Tex.zero⟩ 4 4 1 2 3 4).1
        (createDoubleFBO ⟨0, fun _ => Tex.zero⟩ 4 4 1 2 3 4).1 200 100).2.2.2.radius ≤ 0 :=
  (applySplat_radius_spec ⟨0, fun _ => Tex.zero⟩ ⟨6000, -3⟩ 0 0 0 0 ⟨1, 0, 0⟩
    (createDoubleFBO ⟨0, fun _ => Tex.zero⟩ 4 4 1 2 3 4).1
    (createDoubleFBO ⟨0, fun _ => Tex.zero⟩ 4 4 1 2 3 4).1 200 100).2 (by norm_num)

/-- `HSLAColor` (`colorManager.ts` 27-32). -/
structure HSLAColor where
  h : ℚ
  s : ℚ
  l : ℚ
  a : ℚ
  deriving DecidableEq

/-- `RGBColor` (`colorManager.ts` 18-22). -/
structure RGBColor where
  r : ℚ
  g : ℚ
  b : ℚ
  deriving DecidableEq

/-- The `hue2rgb` helper inside `HSLAtoRGB` (`colorManager.ts`
71-78). -/
def hue2rgb (p q t : ℚ) : ℚ :=
  let t1 := if t < 0 then t + 1 else t
  let t2 := if t1 > 1 then t1 - 1 else t1
  if t2 < 1 / 6 then p + (q - p) * 6 * t2
  else if t2 < 1 / 2 then q
  else if t2 < 2 / 3 then p + (q - p) * (2 / 3 - t2) * 6
  else p

/-- `HSLAtoRGB` (`colorManager.ts` 60-88) on an already-parsed HSLA
value (the object branch of the source's union argument). -/
def HSLAtoRGB (c : HSLAColor) : RGBColor :=
  let h := c.h / 360
  let s := c.s / 100
  let l := c.l / 100
  if s = 0 then ⟨l, l, l⟩
  else
    let q := if l < 1 / 2 then l * (1 + s) else l + s - l * s
    let p := 2 * l - q
    ⟨hue2rgb p q (h + 1 / 3), hue2rgb p q h, hue2rgb p q (h - 1 / 3)⟩

/-- The module-level state of `colorManager.ts` (lines 35-36). -/
structure ColorState where
  currentScheme : String
  currentColors : List RGBColor
  deriving DecidableEq

/-- `parseInt(s, 10)` on a run of decimal digits. -/
def digitsToNat (l : List Char) : ℕ :=
  l.foldl (fun n c => 10 * n + (c.toNat - ('0').toNat)) 0

/-- The `\s*,?\s*` separators of the `parseHSLA` regular expression:
optional whitespace, an optional comma, optional whitespace. -/
def sepSkip (l : List Char) : List Char :=
  let l1 := (l.span Char.isWhitespace).2
  let l2 := match l1 with
    | ',' :: r => r
    | _ => l1
  (l2.span Char.isWhitespace).2

/-- The `parseHSLA` regular expression
`hsla?\((\d+)(?:deg)?\s*,?\s*(\d+)%?\s*,?\s*(\d+)%?\s*,?\s*(\d*\.?\d*)?\)`
(`colorManager.ts` 44) matched at the start of `l`, returning the four
capture groups (the fourth as its raw characters — the empty capture is
the falsy `""`).  Each quantifier here is followed by a character it can
never consume, so greedy matching without backtracking coincides with
the regex semantics. -/
def matchHSLA (l : List Char) : Option (ℕ × ℕ × ℕ × List Char) :=
  match l with
  | 'h' :: 's' :: 'l' :: rest0 =>
    let rest1 := match rest0 with
      | 'a' :: r => r
      | _ => rest0
    match rest1 with
    | '(' :: r2 =>
      let ph := r2.span Char.isDigit
      if ph.1.isEmpty then none else
      let r4 := match ph.2 with
        | 'd' :: 'e' :: 'g' :: rr => rr
        | _ => ph.2
      let ps := (sepSkip r4).span Char.isDigit
      if ps.1.isEmpty then none else
      let r7 := match ps.2 with
        | '%' :: rr => rr
        | _ => ps.2
      let pl := (sepSkip r7).span Char.isDigit
      if pl.1.isEmpty then none else
      let r10 := match pl.2 with
        | '%' :: rr => rr
        | _ => pl.2
      let pa := (sepSkip r10).span Char.isDigit
      let pa2 := match pa.2 with
        | '.' :: rr =>
          let pf := rr.span Char.isDigit
          (pa.1 ++ ('.') :: pf.1, pf.2)
        | _ => (pa.1, pa.2)
      match pa2.2 with
      | ')' :: _ =>
        some (digitsToNat ph.1, digitsToNat ps.1, digitsToNat pl.1, pa2.1)
      | _ => none
    | _ => none
  | _ => none

/-- The unanchored `String.prototype.match`: the first position at which
the pattern matches. -/
def searchHSLA : List Char → Option (ℕ × ℕ × ℕ × List Char)
  | [] => none
  | c :: rest =>
    match matchHSLA (c :: rest) with
    | some r => some r
    | none => searchHSLA rest

/-- `parseFloat` on an alpha capture of shape `\d*\.?\d*`. -/
def parseFloatQ (l : List Char) : ℚ :=
  let p := l.span Char.isDigit
  match p.2 with
  | '.' :: r =>
    let f := r.span Char.isDigit
    (digitsToNat p.1 : ℚ) + (digitsToNat f.1 : ℚ) / (10 : ℚ) ^ f.1.length
  | _ => (digitsToNat p.1 : ℚ)

/-- `parseHSLA` (`colorManager.ts` 42-54): match the regular expression
anywhere in the string — `none` models the thrown `Invalid HSLA string`
error — with a missing or empty (falsy) alpha capture defaulting to
1. -/
def parseHSLA (s : String) : Option HSLAColor :=
  (searchHSLA s.data).map fun r =>
    ⟨(r.1 : ℚ), (r.2.1 : ℚ), (r.2.2.1 : ℚ),
     if r.2.2.2.isEmpty then 1 else parseFloatQ r.2.2.2⟩

/-- The string branch of `HSLAtoRGB` (`colorManager.ts` 60-61): parse,
then convert. -/
def HSLAtoRGBStr (s : String) : Option RGBColor :=
  (parseHSLA s).map HSLAtoRGB

/-- The `default` gradient of `colorConfigurations` (the record staged
after `FluidRenderer.ts`, lines 941-958). -/
def defaultGradient : List String :=
  ["hsl(240deg 100% 20%)", "hsl(281deg 100% 21%)", "hsl(304deg 100% 23%)",
   "hsl(319deg 100% 30%)", "hsl(329deg 100% 36%)", "hsl(336deg 100% 41%)",
   "hsl(346deg 83% 51%)", "hsl(3deg 95% 61%)", "hsl(17deg 100% 59%)",
   "hsl(30deg 100% 55%)", "hsl(40deg 100% 50%)", "hsl(48deg 100% 50%)",
   "hsl(55deg 100% 50%)"]

/-- The `fire` gradient (lines 959-965). -/
def fireGradient : List String :=
  ["hsla(31, 100%, 50%, 1)", "hsla(356, 100%, 50%, 1)", "hsla(42, 100%, 56%, 1)"]

/-- The `red_to_purple` gradient (lines 966-979). -/
def redToPurpleGradient : List String :=
  ["hsla(333, 93%, 56%, 1)", "hsla(309, 77%, 40%, 1)", "hsla(276, 91%, 38%, 1)",
   "hsla(268, 88%, 36%, 1)", "hsla(263, 87%, 35%, 1)", "hsla(258, 86%, 34%, 1)",
   "hsla(243, 57%, 50%, 1)", "hsla(229, 83%, 60%, 1)", "hsla(212, 84%, 61%, 1)",
   "hsla(194, 85%, 62%, 1)"]

/-- The `blue_to_yellow` gradient (lines 980-990). -/
def blueToYellowGradient : List String :=
  ["hsl(204deg 100% 22%)", "hsl(199deg 100% 29%)", "hsl(189deg 100% 32%)",
   "hsl(173deg 100% 33%)", "hsl(154deg 100% 39%)", "hsl(89deg 70% 56%)",
   "hsl(55deg 100% 50%)"]

/-- The `red_to_blue` gradient (lines 991-999). -/
def redToBlueGradient : List String :=
  ["hsl(0deg 100% 50%)", "hsl(330deg 100% 50%)", "hsl(300deg 100% 50%)",
   "hsl(270deg 100% 50%)", "hsl(240deg 100% 50%)"]

/-- The `sunset` gradient (lines 1000-1008). -/
def sunsetGradient : List String :=
  ["hsl(200deg 100% 20%)", "hsl(220deg 100% 30%)", "hsl(340deg 100% 40%)",
   "hsl(20deg 100% 50%)", "hsl(45deg 100% 60%)"]

/-- The `blue_to_purple` gradient (lines 1009-1017). -/
def blueToPurpleGradient : List String :=
  ["hsl(333deg 93% 56%)", "hsl(276deg 91% 38%)", "hsl(258deg 86% 34%)",
   "hsl(229deg 83% 60%)", "hsl(194deg 85% 62%)"]

/-- The `blue_to_pink` gradient (lines 1018-1026). -/
def blueToPinkGradient : List String :=
  ["hsla(44, 100%, 52%, 1)", "hsla(19, 97%, 51%, 1)", "hsla(334, 100%, 50%, 1)",
   "hsla(265, 83%, 57%, 1)", "hsla(217, 100%, 61%, 1)"]

/-- The `crazy` gradient (lines 1027-1034). -/
def crazyGradient : List String :=
  ["hsla(43, 92%, 66%, 1)", "hsla(355, 98%, 60%, 1)", "hsla(281, 78%, 61%, 1)",
   "hsla(198, 99%, 78%, 1)"]

/-- The `dusk` gradient (lines 1035-1042). -/
def duskGradient : List String :=
  ["hsla(315, 20%, 45%, 1)", "hsla(228, 31%, 60%, 1)", "hsla(320, 100%, 68%, 1)",
   "hsla(25, 65%, 30%, 1)"]

/-- The `rosolane_to_helvetia` gradient (lines 1043-1048). -/
def rosolaneToHelvetiaGradient : List String :=
  ["hsla(207, 70%, 37%, 1)", "hsla(288, 37%, 55%, 1)"]

/-- The `colorConfigurations` record (staged after `FluidRenderer.ts`,
lines 941-1049): scheme name to its `gradient` array; `undefined`
(`none`) for an unconfigured name. -/
def colorConfigurations (scheme : String) : Option (List String) :=
  if scheme = "default" then some defaultGradient
  else if scheme = "fire" then some fireGradient
  else if scheme = "red_to_purple" then some redToPurpleGradient
  else if scheme = "blue_to_yellow" then some blueToYellowGradient
  else if scheme = "red_to_blue" then some redToBlueGradient
  else if scheme = "sunset" then some sunsetGradient
  else if scheme = "blue_to_purple" then some blueToPurpleGradient
  else if scheme = "blue_to_pink" then some blueToPinkGradient
  else if scheme = "crazy" then some crazyGradient
  else if scheme = "dusk" then some duskGradient
  else if scheme = "rosolane_to_helvetia" then some rosolaneToHelvetiaGradient
  else none

/-- `setColorScheme` (`colorManager.ts` 131-139): fall back to the
"default" scheme, with a warning, when the requested name is not
configured; then convert that scheme's gradient strings to RGB and
cache them.  `none` models a throw — either the member access on an
undefined scheme or a `parseHSLA` failure on a gradient entry; the
`Bool` records whether the warning was emitted. -/
def setColorScheme (scheme : String) : Option (ColorState × Bool) :=
  let pick := if (colorConfigurations scheme).isNone then (("default" : String), true)
              else (scheme, false)
  match colorConfigurations pick.1 with
  | none => none
  | some gradient =>
    match gradient.mapM HSLAtoRGBStr with
    | none => none
    | some colors => some (⟨pick.1, colors⟩, pick.2)

/-- JavaScript array indexing `arr[i]` with a possibly out-of-range
integer index: `undefined` (here `none`) outside the bounds. -/
def jsIndex (l : List RGBColor) (i : ℤ) : Option RGBColor :=
  if i < 0 then none else l[i.toNat]?

/-- `getRandomColor` (`colorManager.ts` 145-150): re-select the current
scheme when the cached palette is empty, then pick the entry at
`Math.floor(random * length)`. -/
def getRandomColor (st : ColorState) (rand : ℚ) :
    Option (ColorState × Option RGBColor) :=
  match (if st.currentColors.length = 0
         then (setColorScheme st.currentScheme).map Prod.fst
         else some st) with
  | none => none
  | some st' =>
    some (st', jsIndex st'.currentColors ⌊rand * (st'.currentColors.length : ℚ)⌋)

/-- The default gradient converted to RGB — the palette that selecting
the `default` scheme caches. -/
def defaultPalette : List RGBColor :=
  (defaultGradient.mapM HSLAtoRGBStr).getD []

lemma defaultGradient_parses :
    defaultGradient.mapM HSLAtoRGBStr = some defaultPalette := by
  have h : (defaultGradient.mapM HSLAtoRGBStr).isSome = true := by decide
  unfold defaultPalette
  cases hm : defaultGradient.mapM HSLAtoRGBStr with
  | none => rw [hm] at h; exact absurd h (by simp)
  | some p => rfl

lemma getRandomColor_of_nonempty (st : ColorState)
    (rand : ℚ) (h : st.currentColors.length ≠ 0) :
    getRandomColor st rand =
      some (st, jsIndex st.currentColors ⌊rand * (st.currentColors.length : ℚ)⌋) := by
  unfold getRandomColor
  rw [if_neg h]

/-- Claim C8: `setColorScheme` called with an unrecognized scheme name
never throws — it emits a warning and caches the same palette that
selecting the `default` scheme caches (the default gradient converted
to RGB, which parses without error) — and a subsequent
`getRandomColor` (with any in-range random draw) returns a color of
that default palette. -/
theorem setColorScheme_fallback_spec (name : String) (rand : ℚ)
    (hmiss : colorConfigurations name = none) :
    setColorScheme ("default") = some (⟨("default"), defaultPalette⟩, false) ∧
    setColorScheme name = some (⟨("default"), defaultPalette⟩, true) ∧
    (0 ≤ rand → rand < 1 →
      ∃ c ∈ defaultPalette,
        getRandomColor ⟨("default"), defaultPalette⟩ rand =
          some (⟨("default"), defaultPalette⟩, some c)) := by
  refine ⟨?_, ?_, ?_⟩
  · show (match defaultGradient.mapM HSLAtoRGBStr with
          | none => none
          | some colors => some ((⟨("default"), colors⟩ : ColorState), false)) =
        some (⟨("default"), defaultPalette⟩, false)
    rw [defaultGradient_parses]
  · unfold setColorScheme
    rw [hmiss]
    show (match defaultGradient.mapM HSLAtoRGBStr with
          | none => none
          | some colors => some ((⟨("default"), colors⟩ : ColorState), true)) =
        some (⟨("default"), defaultPalette⟩, true)
    rw [defaultGradient_parses]
  · intro h0 h1
    have hlen : defaultPalette.length ≠ 0 := by decide
    have hlenpos : 0 < defaultPalette.length := Nat.pos_of_ne_zero hlen
    have hcast : (0 : ℚ) < (defaultPalette.length : ℚ) := by
      exact_mod_cast hlenpos
    have hfloor0 : (0 : ℤ) ≤ ⌊rand * (defaultPalette.length : ℚ)⌋ :=
      Int.floor_nonneg.mpr (mul_nonneg h0 (le_of_lt hcast))
    have hfloorlt :
        ⌊rand * (defaultPalette.length : ℚ)⌋ < (defaultPalette.length : ℤ) := by
      apply Int.floor_lt.mpr
      push_cast
      calc rand * (defaultPalette.length : ℚ)
          < 1 * (defaultPalette.length : ℚ) := mul_lt_mul_of_pos_right h1 hcast
        _ = (defaultPalette.length : ℚ) := one_mul _
    have hidx :
        (⌊rand * (defaultPalette.length : ℚ)⌋).toNat < defaultPalette.length := by
      omega
    refine ⟨defaultPalette.get
        ⟨(⌊rand * (defaultPalette.length : ℚ)⌋).toNat, hidx⟩,
      List.get_mem _ _ hidx, ?_⟩
    rw [getRandomColor_of_nonempty _ _ hlen]
    unfold jsIndex
    rw [if_neg (not_lt.mpr hfloor0)]
    rw [List.getElem?_eq_getElem hidx]
    rfl

/-- Witness for C8: the scheme name "nonexistent" falls back to the
default palette with a warning, and the draw at random value 0 returns
one of its colors. -/
theorem setColorScheme_fallback_spec_witness :
    setColorScheme ("nonexistent") = some (⟨("default"), defaultPalette⟩, true) ∧
    ∃ c ∈ defaultPalette,
      getRandomColor ⟨("default"), defaultPalette⟩ 0 =
        some (⟨("default"), defaultPalette⟩, some c) := by
  have h := setColorScheme_fallback_spec ("nonexistent") 0 (by decide)
  exact ⟨h.2.1, h.2.2 (by norm_num) (by norm_num)⟩

/-- The external math kernels (`Math.cos`, `Math.sin`, `Math.sqrt`,
`Math.PI`) the oscillator calls, abstracted over the number type. -/
structure MathModel (R : Type) where
  cos : R → R
  sin : R → R
  sqrt : R → R
  pi : R

/-- The fields of `DuffingOscillator` (`DuffingOscillator.ts` 1-16). -/
structure DuffingState (R : Type) where
  x : R
  y : R
  dx : R
  dy : R
  delta : R
  beta : R
  alpha : R
  gamma : R
  omega : R
  time : R
  phaseOffset : R
  baseX : R
  baseY : R
  index : ℕ
  totalOscillators : ℕ

/-- The `DuffingOscillator` constructor (`DuffingOscillator.ts` 18-50):
phase offset `2π·index/total`, home position on the circle of radius
0.3 at that angle, initial velocity tangential with magnitude 0.05. -/
def mkDuffing {R : Type} [Field R] (M : MathModel R)
    (delta beta alpha gamma omega : R) (index total : ℕ) : DuffingState R :=
  let phaseOffset := 2 * M.pi * (index : R) / (total : R)
  let angle := phaseOffset
  let radius : R := 3 / 10
  { x := 0, y := 0,
    dx := M.cos (angle + M.pi / 2) * (5 / 100),
    dy := M.sin (angle + M.pi / 2) * (5 / 100),
    delta := delta, beta := beta, alpha := alpha, gamma := gamma,
    omega := omega, time := 0,
    phaseOffset := phaseOffset,
    baseX := M.cos angle * radius, baseY := M.sin angle * radius,
    index := index, totalOscillators := total }

/-- The forcing terms computed at the top of `update`
(`DuffingOscillator.ts` 54-55), at an explicit time `t`. -/
def duffingForcing {R : Type} [Field R] (M : MathModel R)
    (o : DuffingState R) (t : R) : R × R :=
  (o.gamma * M.cos (o.omega * t + o.phaseOffset),
   o.gamma * M.sin (o.omega * t + o.phaseOffset))

/-- `update` (`DuffingOscillator.ts` 52-87): forcing at the current
time, Duffing velocity update, progressive containment beyond distance
0.4 from home, explicit Euler position update, and the scaled output. -/
def duffingUpdate {R : Type} [LinearOrderedField R] (M : MathModel R)
    (o : DuffingState R) (dt : R) : DuffingState R × (R × R × R × R) :=
  let forcing := duffingForcing M o o.time
  let dx1 := o.dx + (-o.delta * o.dx - o.beta * o.x - o.alpha * o.x ^ 3 + forcing.1) * dt
  let dy1 := o.dy + (-o.delta * o.dy - o.beta * o.y - o.alpha * o.y ^ 3 + forcing.2) * dt
  let ddx := o.baseX - o.x
  let ddy := o.baseY - o.y
  let dist := M.sqrt (ddx * ddx + ddy * ddy)
  let maxDist : R := 4 / 10
  let v :=
    if dist > maxDist then
      let containmentForce := 2 / 10 * (dist - maxDist) / maxDist
      (dx1 + ddx / dist * containmentForce, dy1 + ddy / dist * containmentForce)
    else (dx1, dy1)
  let x2 := o.x + v.1 * dt
  let y2 := o.y + v.2 * dt
  let time2 := o.time + dt
  let scale : R := 4 / 10
  ({ o with x := x2, y := y2, dx := v.1, dy := v.2, time := time2 },
   ((x2 + o.baseX) * scale, (y2 + o.baseY) * scale, v.1 * scale, v.2 * scale))

/-- Claim C9: for oscillators constructed with identical parameters
except the index, the phase offset is `2π·index/N`, the home position
lies on the circle of radius 0.3 at that angle, the constructed time is
0, the forcing at t = 0 equals `(γ·cos φ, γ·sin φ)`, and the t = 0
forcing depends only on the phase offset: any two such oscillators with
equal phase offsets have equal forcings. -/
theorem duffing_symmetry_spec {R : Type} [LinearOrderedField R]
    (M : MathModel R) (delta beta alpha gamma omega : R) (i N : ℕ) :
    (mkDuffing M delta beta alpha gamma omega i N).phaseOffset =
      2 * M.pi * (i : R) / (N : R) ∧
    (mkDuffing M delta beta alpha gamma omega i N).baseX =
      M.cos (2 * M.pi * (i : R) / (N : R)) * (3 / 10) ∧
    (mkDuffing M delta beta alpha gamma omega i N).baseY =
      M.sin (2 * M.pi * (i : R) / (N : R)) * (3 / 10) ∧
    (mkDuffing M delta beta alpha gamma omega i N).time = 0 ∧
    duffingForcing M (mkDuffing M delta beta alpha gamma omega i N) 0 =
      (gamma * M.cos ((mkDuffing M delta beta alpha gamma omega i N).phaseOffset),
       gamma * M.sin ((mkDuffing M delta beta alpha gamma omega i N).phaseOffset)) ∧
    (∀ j : ℕ,
      (mkDuffing M delta beta alpha gamma omega j N).phaseOffset =
        (mkDuffing M delta beta alpha gamma omega i N).phaseOffset →
      duffingForcing M (mkDuffing M delta beta alpha gamma omega j N) 0 =
        duffingForcing M (mkDuffing M delta beta alpha gamma omega i N) 0) := by
  have key : ∀ (o : DuffingState R), duffingForcing M o 0 =
      (o.gamma * M.cos o.phaseOffset, o.gamma * M.sin o.phaseOffset) := by
    intro o
    unfold duffingForcing
    rw [mul_zero, zero_add]
  refine ⟨rfl, rfl, rfl, rfl, key _, ?_⟩
  intro j hphase
  rw [key, key, hphase]
  rfl

/-- Witness for C9 over the rationals with a concrete math model:
oscillators 1 and 3 of 4 share their forcing at t = 0 once their phase
offsets agree. -/
theorem duffing_symmetry_spec_witness :
    duffingForcing (⟨fun q => q + 1, fun q => q - 1, fun q => q, 0⟩ : MathModel ℚ)
        (mkDuffing (⟨fun q => q + 1, fun q => q - 1, fun q => q, 0⟩ : MathModel ℚ)
          (2 / 10) (1 / 10) (12 / 10) 1 (1 / 2) 3 4) 0 =
      duffingForcing (⟨fun q => q + 1, fun q => q - 1, fun q => q, 0⟩ : MathModel ℚ)
        (mkDuffing (⟨fun q => q + 1, fun q => q - 1, fun q => q, 0⟩ : MathModel ℚ)
          (2 / 10) (1 / 10) (12 / 10) 1 (1 / 2) 1 4) 0 :=
  (duffing_symmetry_spec
      (⟨fun q => q + 1, fun q => q - 1, fun q => q, 0⟩ : MathModel ℚ)
      (2 / 10) (1 / 10) (12 / 10) 1 (1 / 2) 1 4).2.2.2.2.2 3
    (show 2 * (0 : ℚ) * 3 / 4 = 2 * 0 * 1 / 4 by norm_num)

end FluidSpec
